import Mathlib

/-!
Shallow embedding of `media_cdn/snippets.py` (Media CDN signed-URL /
signed-cookie / short-token generation).

Modelling conventions:
* Python `bytes` values are `List Nat` (each entry a byte value `< 256`;
  where a byte is produced from arithmetic we reduce `% 256` explicitly).
* Python `datetime` values are the exact number of microseconds from the
  Unix epoch, as an `Int` (a `datetime` has microsecond resolution, and
  subtraction of two datetimes is exact at that resolution).
  `int((t - epoch).total_seconds())` is modelled as truncating division of
  the microsecond count by `10^6` (`Int.tdiv` truncates toward zero
  exactly as CPython's `int(float)` does).  This model of `total_seconds()` is
  exact for `|t| < 2^33` seconds from the epoch (float rounding in
  `total_seconds` can only matter beyond roughly 272 years).
* Raised Python exceptions are modelled by `Except PyErr`.
* The external `cryptography` Ed25519 signer and the `hmac` digests are
  deterministic pure functions of (key bytes, message bytes); they are
  passed to each embedded function as an explicit function argument
  (`edSign`, `hmacSha1`, `hmacSha256`).  The only facts about them that
  the library documents and that theorems use are stated as hypotheses
  (an Ed25519 signature is 64 bytes; a SHA-1 HMAC digest is 20 bytes;
  `Ed25519PrivateKey.from_private_bytes` rejects keys that are not
  exactly 32 bytes).
-/

namespace MediaCDN

/-- Python exceptions that the embedded code can raise. -/
inductive PyErr where
  /-- `raise ValueError(msg)` -/
  | valueError (msg : String)
  /-- reading a local variable that was never assigned -/
  | unboundLocalError (var : String)
  /-- `binascii.Error` from `base64.urlsafe_b64decode` -/
  | binasciiError
  deriving DecidableEq, Repr

deriving instance DecidableEq for Except

/-- Is the result the input-validation failure shape (`ValueError`)? -/
def isInputValidationError : Except PyErr String → Bool
  | .error (.valueError _) => true
  | _ => false

/-- The characters Python's `str.strip()` removes (the ASCII ones;
the exotic Unicode space characters are irrelevant to URLs/keys here). -/
def pyIsWhitespace (c : Char) : Bool :=
  c == ' ' || c == '\t' || c == '\n' || c == '\r' || c.toNat == 11 || c.toNat == 12

/-- Python `s.strip()`: drop leading and trailing whitespace. -/
def pyStrip (s : String) : String :=
  String.mk (((s.data.dropWhile pyIsWhitespace).reverse.dropWhile pyIsWhitespace).reverse)

/-- Python `s.lower()` restricted to ASCII (the algorithm names compared
against are ASCII). -/
def charLower (c : Char) : Char :=
  if 'A' ≤ c && c ≤ 'Z' then Char.ofNat (c.toNat + 32) else c

/-- Python `s.lower()`. -/
def pyLower (s : String) : String :=
  String.mk (s.data.map charLower)

/-- Truthiness of an optional Python string: `None` and `""` are falsy. -/
def pyTruthy : Option String → Bool
  | none => false
  | some s => !s.data.isEmpty

/-- UTF-8 encoding of one character (`str.encode("utf-8")`, per char). -/
def utf8EncodeChar (c : Char) : List Nat :=
  let v := c.toNat
  if v < 128 then [v]
  else if v < 2048 then [192 + v / 64, 128 + v % 64]
  else if v < 65536 then [224 + v / 4096, 128 + v / 64 % 64, 128 + v % 64]
  else [240 + v / 262144, 128 + v / 4096 % 64, 128 + v / 64 % 64, 128 + v % 64]

/-- Python `s.encode("utf-8")`. -/
def utf8Encode (s : String) : List Nat :=
  (s.data.map utf8EncodeChar).flatten

/-- The URL-safe base64 alphabet, position `n` for `n < 64`. -/
def b64Char (n : Nat) : Char :=
  if n < 26 then Char.ofNat (65 + n)
  else if n < 52 then Char.ofNat (97 + (n - 26))
  else if n < 62 then Char.ofNat (48 + (n - 52))
  else if n = 62 then '-' else '_'

/-- `base64.urlsafe_b64encode`, producing the padded text form. -/
def urlsafeB64Encode : List Nat → String
  | [] => ""
  | [a] =>
    let a := a % 256
    String.mk [b64Char (a / 4), b64Char (a % 4 * 16), '=', '=']
  | [a, b] =>
    let a := a % 256
    let b := b % 256
    String.mk [b64Char (a / 4), b64Char (a % 4 * 16 + b / 16), b64Char (b % 16 * 4), '=']
  | a :: b :: c :: rest =>
    let a := a % 256
    let b := b % 256
    let c := c % 256
    String.mk [b64Char (a / 4), b64Char (a % 4 * 16 + b / 16),
      b64Char (b % 16 * 4 + c / 64), b64Char (c % 64)] ++ urlsafeB64Encode rest

/-- Value of one character of the URL-safe base64 alphabet. -/
def b64CharVal (c : Char) : Option Nat :=
  if 'A' ≤ c && c ≤ 'Z' then some (c.toNat - 65)
  else if 'a' ≤ c && c ≤ 'z' then some (c.toNat - 97 + 26)
  else if '0' ≤ c && c ≤ '9' then some (c.toNat - 48 + 52)
  else if c = '-' then some 62
  else if c = '_' then some 63
  else none

/-- `base64.urlsafe_b64decode` on well-formed input (groups of four
characters, padding only in the final group); malformed input yields
`none`, modelling `binascii.Error`. -/
def urlsafeB64DecodeChars : List Char → Option (List Nat)
  | [] => some []
  | c1 :: c2 :: c3 :: c4 :: rest =>
    match b64CharVal c1, b64CharVal c2 with
    | some v1, some v2 =>
      if c3 = '=' && c4 = '=' && rest.isEmpty then
        some [v1 * 4 + v2 / 16]
      else
        match b64CharVal c3 with
        | some v3 =>
          if c4 = '=' && rest.isEmpty then
            some [v1 * 4 + v2 / 16, v2 % 16 * 16 + v3 / 4]
          else
            match b64CharVal c4 with
            | some v4 =>
              (urlsafeB64DecodeChars rest).map
                (fun tail =>
                  (v1 * 4 + v2 / 16) :: (v2 % 16 * 16 + v3 / 4) :: (v3 % 4 * 64 + v4) :: tail)
            | none => none
        | none => none
    | _, _ => none
  | _ => none

/-- `base64.urlsafe_b64decode` over text. -/
def urlsafeB64Decode (s : String) : Option (List Nat) :=
  urlsafeB64DecodeChars s.data

/-- The decimal digit character for `n % 10`. -/
def digitChar (n : Nat) : Char :=
  match n % 10 with
  | 0 => '0' | 1 => '1' | 2 => '2' | 3 => '3' | 4 => '4'
  | 5 => '5' | 6 => '6' | 7 => '7' | 8 => '8' | _ => '9'

/-- Decimal digits of `n`, most significant first, with an explicit fuel
argument (any fuel above `n` suffices) so the recursion is structural and
the kernel can evaluate it. -/
def natDigitsGo : Nat → Nat → List Char
  | 0, _ => []
  | fuel + 1, n =>
    if n < 10 then [digitChar n]
    else natDigitsGo fuel (n / 10) ++ [digitChar (n % 10)]

/-- Decimal digits of a natural number, most significant first. -/
def natToDecimalAux (n : Nat) : List Char :=
  natDigitsGo (n + 1) n

/-- Python `str(n)` for a natural number. -/
def natToDecimal (n : Nat) : String :=
  String.mk (natToDecimalAux n)

/-- Python `str(i)` for an integer (`-` followed by the digits of the
absolute value when negative). -/
def intToDecimal (i : Int) : String :=
  if i < 0 then "-" ++ natToDecimal (-i).toNat else natToDecimal i.toNat

/-- Numeric value of a decimal digit character. -/
def decDigitVal (c : Char) : Nat := c.toNat - 48

/-- Parse a digit list back to its value (left inverse of `natToDecimalAux`). -/
def decimalVal (l : List Char) : Nat :=
  l.foldl (fun a c => a * 10 + decDigitVal c) 0

/-- One lowercase hexadecimal digit, for `n % 16`. -/
def hexChar (n : Nat) : Char :=
  match n % 16 with
  | 0 => '0' | 1 => '1' | 2 => '2' | 3 => '3' | 4 => '4'
  | 5 => '5' | 6 => '6' | 7 => '7' | 8 => '8' | 9 => '9'
  | 10 => 'a' | 11 => 'b' | 12 => 'c' | 13 => 'd' | 14 => 'e' | _ => 'f'

/-- Python `hmac.new(...).hexdigest()` applied to already-computed digest
bytes: two lowercase hex characters per byte. -/
def toHex (bs : List Nat) : String :=
  String.mk ((bs.map (fun b => [hexChar (b % 256 / 16), hexChar (b % 256 % 16)])).flatten)

/-- Is the character a lowercase hexadecimal digit? -/
def isLowerHexDigit (c : Char) : Bool :=
  ('0' ≤ c && c ≤ '9') || ('a' ≤ c && c ≤ 'f')

/-- `int((t - datetime.utcfromtimestamp(0)).total_seconds())` where `t` is
`usec` microseconds from the epoch: truncating division by `10^6`
(CPython's `int()` truncates the float toward zero). -/
def totalSecondsInt (usec : Int) : Int :=
  Int.tdiv usec 1000000

/-- `urllib.parse.urlsplit` removes the unsafe URL bytes tab, CR and LF
from anywhere in its input before splitting (CPython `bpo-43882`). -/
def removeUnsafeUrlChars (l : List Char) : List Char :=
  l.filter (fun c => !(c == '\t' || c == '\r' || c == '\n'))

/-- The `query` component of `urllib.parse.urlsplit`: everything after the
first `?` of the part that precedes the first `#`. -/
def urlsplitQuery (url : String) : String :=
  let u := removeUnsafeUrlChars url.data
  match (u.takeWhile (fun c => c != '#')).dropWhile (fun c => c != '?') with
  | [] => ""
  | _ :: rest => String.mk rest

/-- Split a character list on a separator character (Python
`qs.split('&')`, at the character level). -/
def splitOnChar (sep : Char) : List Char → List (List Char)
  | [] => [[]]
  | c :: cs =>
    match splitOnChar sep cs with
    | [] => if c == sep then [[], []] else [[c]]
    | g :: gs => if c == sep then [] :: g :: gs else (c :: g) :: gs

/-- `bool(urllib.parse.parse_qs(query, keep_blank_values=True))`: with
`keep_blank_values=True` every nonempty `&`-chunk contributes a pair, and
empty chunks are skipped, so the dict is nonempty exactly when some chunk
is nonempty. -/
def hasQueryParams (query : String) : Bool :=
  (splitOnChar '&' query.data).any (fun g => !g.isEmpty)

/-- The `while chr(output[-1]) == "=": output = output[:-1]` loop of
`sign_token`: drop trailing `=` characters.  (The loop acts on bytes, but
every payload it is applied to is the UTF-8 encoding of a string, in
which a trailing `=` byte is exactly a trailing `=` character; the loop
never empties its input because every branch's payload starts with an
ASCII letter.) -/
def stripTrailingEqStr (s : String) : String :=
  String.mk ((s.data.reverse.dropWhile (fun c => c == '=')).reverse)

/-- The local `url_to_sign` of `sign_url`: the policy string
`{stripped_url}{separator}Expires={expires}&KeyName={key_name}`. -/
def url_to_sign (url key_name : String) (expiration_time : Int) : String :=
  let strippedUrl := pyStrip url
  strippedUrl
    ++ (if hasQueryParams (urlsplitQuery strippedUrl) then "&" else "?")
    ++ "Expires=" ++ intToDecimal (totalSecondsInt expiration_time)
    ++ "&KeyName=" ++ key_name

/-- `sign_url` from `media_cdn/snippets.py`: full-URL signing.
`edSign key msg` stands for
`Ed25519PrivateKey.from_private_bytes(key).sign(msg)`. -/
def sign_url (edSign : List Nat → List Nat → List Nat)
    (url key_name base64_key : String) (expiration_time : Int) :
    Except PyErr String :=
  match urlsafeB64Decode base64_key with
  | none => .error .binasciiError
  | some decodedKey =>
    if decodedKey.length = 32 then
      let urlToSign := url_to_sign url key_name expiration_time
      .ok (urlToSign ++ "&Signature="
        ++ urlsafeB64Encode (edSign decodedKey (utf8Encode urlToSign)))
    else
      .error (.valueError "An Ed25519 private key is 32 bytes long")

/-- `sign_url_prefix` from `media_cdn/snippets.py`: URL-prefix signing.
The policy is
`URLPrefix={encoded_url_prefix}&Expires={expires}&KeyName={key_name}`,
appended to the stripped request URL with `?` or `&`. -/
def sign_url_prefix (edSign : List Nat → List Nat → List Nat)
    (url urlPrefix key_name base64_key : String) (expiration_time : Int) :
    Except PyErr String :=
  match urlsafeB64Decode base64_key with
  | none => .error .binasciiError
  | some decodedKey =>
    if decodedKey.length = 32 then
      let strippedUrl := pyStrip url
      let policy := "URLPrefix=" ++ urlsafeB64Encode (utf8Encode (pyStrip urlPrefix))
        ++ "&Expires=" ++ intToDecimal (totalSecondsInt expiration_time)
        ++ "&KeyName=" ++ key_name
      .ok (strippedUrl
        ++ (if hasQueryParams (urlsplitQuery strippedUrl) then "&" else "?")
        ++ policy ++ "&Signature="
        ++ urlsafeB64Encode (edSign decodedKey (utf8Encode policy)))
    else
      .error (.valueError "An Ed25519 private key is 32 bytes long")

/-- `sign_cookie` from `media_cdn/snippets.py`: the policy is
`URLPrefix={encoded_url_prefix}:Expires={expires}:KeyName={key_name}` and
the result is `Edge-Cache-Cookie={policy}:Signature={signature}`. -/
def sign_cookie (edSign : List Nat → List Nat → List Nat)
    ( urlPrefix key_name base64_key : String) (expiration_time : Int) :
    Except PyErr String :=
  match urlsafeB64Decode base64_key with
  | none => .error .binasciiError
  | some decodedKey =>
    if decodedKey.length = 32 then
      let policy := "URLPrefix=" ++ urlsafeB64Encode (utf8Encode (pyStrip urlPrefix))
        ++ ":Expires=" ++ intToDecimal (totalSecondsInt expiration_time)
        ++ ":KeyName=" ++ key_name
      .ok ("Edge-Cache-Cookie=" ++ policy ++ ":Signature="
        ++ urlsafeB64Encode (edSign decodedKey (utf8Encode policy)))
    else
      .error (.valueError "An Ed25519 private key is 32 bytes long")

/-- `sign_token` from `media_cdn/snippets.py`.  `expiration_time` is the
optional datetime argument; `now` models `datetime.datetime.now()`, used
only when `expiration_time` is absent.  The scope-selection `if/elif`
chain assigns the local `output` only when some scope argument is truthy;
otherwise the following `while` loop reads the unassigned local and
Python raises `UnboundLocalError`. -/
def sign_token (hmacSha1 hmacSha256 edSign : List Nat → List Nat → List Nat)
    (base64_key encryption_algorithm : String)
    (expiration_time : Option Int) (now : Int)
    ( urlPrefix full_path path_globs : Option String) :
    Except PyErr String :=
  if urlPrefix.isNone && full_path.isNone && path_globs.isNone then
    .error (.valueError
      "User Input Missing: One of `url_prefix`, `full_path` or `path_globs` must be specified")
  else
    let algo := pyLower encryption_algorithm
    if !(["sha1", "sha256", "ed25519"].contains algo) then
      .error (.valueError
        "Input Missing Error: `encryption_algorithm` can only be one of `sha1`, `sha256` or `ed25519`")
    else
      let scopeOutput : Option String :=
        if pyTruthy full_path then
          some "FullPath"
        else if pyTruthy path_globs then
          some ("PathGlobs=" ++ pyStrip (path_globs.getD ""))
        else if pyTruthy urlPrefix then
          some ("URLPrefix=" ++ urlsafeB64Encode (utf8Encode ( urlPrefix.getD "")))
        else
          none
      match scopeOutput with
      | none => .error (.unboundLocalError "output")
      | some output0 =>
        let output1 := stripTrailingEqStr output0
        let expirationVal := match expiration_time with
          | some e => e
          | none => now + 3600000000
        let output2 := output1 ++ "~Expires="
          ++ intToDecimal (totalSecondsInt expirationVal)
        match urlsafeB64Decode base64_key with
        | none => .error .binasciiError
        | some decodedKey =>
          if algo = "sha1" then
            .ok (output2 ++ "~hmac=" ++ toHex (hmacSha1 decodedKey (utf8Encode output2)))
          else if algo = "sha256" then
            .ok (output2 ++ "~hmac=" ++ toHex (hmacSha256 decodedKey (utf8Encode output2)))
          else
            if decodedKey.length = 32 then
              .ok (output2 ++ "~Signature="
                ++ urlsafeB64Encode (edSign decodedKey (utf8Encode output2)))
            else
              .error (.valueError "An Ed25519 private key is 32 bytes long")

/-- The URL-safe base64 text of 32 zero bytes (a valid-length Ed25519
private-key input). -/
def zeroKeyB64 : String := "AAAAAAAAAAAAAAAAAAAAAAAAAAAAAAAAAAAAAAAAAAA="

/-- 32 zero bytes. -/
def zeroKey : List Nat := List.replicate 32 0

/-- A stand-in signer/digest returning `n` zero bytes, used to witness
hypotheses about the external primitives (an Ed25519 signature is 64
bytes; a SHA-1 HMAC digest is 20 bytes). -/
def constBytes (n : Nat) : List Nat → List Nat → List Nat :=
  fun _ _ => List.replicate n 0

/-- A stand-in signer that returns the message itself; it is injective in
the message, as a deterministic signature scheme is (up to hash
collisions). -/
def idSign : List Nat → List Nat → List Nat :=
  fun _ m => m

/-! ### Supporting lemmas -/

theorem digitChar_toNat (n : Nat) : (digitChar n).toNat = 48 + n % 10 := by
  unfold digitChar
  have h : n % 10 < 10 := Nat.mod_lt _ (by norm_num)
  set m := n % 10 with hm
  interval_cases m <;> rfl

theorem decDigitVal_digitChar (n : Nat) : decDigitVal (digitChar n) = n % 10 := by
  simp [decDigitVal, digitChar_toNat]

theorem utf8EncodeChar_ascii (c : Char) (h : c.toNat < 128) :
    utf8EncodeChar c = [c.toNat] := by
  unfold utf8EncodeChar
  simp [h]

theorem utf8EncodeChar_digitChar (n : Nat) :
    utf8EncodeChar (digitChar n) = [(digitChar n).toNat] := by
  apply utf8EncodeChar_ascii
  rw [digitChar_toNat]
  omega

theorem charToNat_inj {c₁ c₂ : Char} (h : c₁.toNat = c₂.toNat) : c₁ = c₂ := by
  have := congrArg Char.ofNat h
  simpa using this

theorem utf8Encode_append (a b : String) :
    utf8Encode (a ++ b) = utf8Encode a ++ utf8Encode b := by
  simp [utf8Encode]

theorem natDigitsGo_foldl : ∀ fuel n : Nat, n < fuel → ∀ acc : Nat,
    List.foldl (fun a c => a * 10 + decDigitVal c) acc (natDigitsGo fuel n)
      = acc * 10 ^ (natDigitsGo fuel n).length + n := by
  intro fuel
  induction fuel with
  | zero => intro n h; omega
  | succ f ih =>
    intro n h acc
    by_cases h10 : n < 10
    · simp [natDigitsGo, h10, decDigitVal_digitChar, Nat.mod_eq_of_lt h10]
    · have hf : n / 10 < f := by omega
      rw [show natDigitsGo (f + 1) n
          = natDigitsGo f (n / 10) ++ [digitChar (n % 10)] from by
        rw [natDigitsGo, if_neg h10]]
      rw [List.foldl_append, ih (n / 10) hf acc]
      simp only [List.foldl_cons, List.foldl_nil, List.length_append, List.length_cons,
        List.length_nil, decDigitVal_digitChar, Nat.zero_add, Nat.add_zero]
      rw [pow_succ]
      generalize (10 : Nat) ^ (natDigitsGo f (n / 10)).length = P
      have expand : (acc * P + n / 10) * 10 = acc * (P * 10) + n / 10 * 10 := by ring
      rw [expand, Nat.add_assoc]
      congr 1
      omega

theorem decimalVal_natToDecimalAux (n : Nat) : decimalVal (natToDecimalAux n) = n := by
  have := natDigitsGo_foldl (n + 1) n (Nat.lt_succ_self n) 0
  simpa [decimalVal, natToDecimalAux] using this

theorem natToDecimalAux_inj {n m : Nat} (h : natToDecimalAux n = natToDecimalAux m) :
    n = m := by
  have h1 := decimalVal_natToDecimalAux n
  have h2 := decimalVal_natToDecimalAux m
  rw [h, h2] at h1
  omega

theorem natDigitsGo_utf8 : ∀ fuel n : Nat, n < fuel →
    ((natDigitsGo fuel n).map utf8EncodeChar).flatten = (natDigitsGo fuel n).map Char.toNat := by
  intro fuel
  induction fuel with
  | zero => intro n h; omega
  | succ f ih =>
    intro n h
    by_cases h10 : n < 10
    · simp [natDigitsGo, h10, utf8EncodeChar_digitChar]
    · have hf : n / 10 < f := by omega
      rw [show natDigitsGo (f + 1) n
          = natDigitsGo f (n / 10) ++ [digitChar (n % 10)] from by
        rw [natDigitsGo, if_neg h10]]
      simp only [List.map_append, List.flatten_append]
      rw [ih (n / 10) hf]
      simp [utf8EncodeChar_digitChar]

theorem utf8Encode_natToDecimal (n : Nat) :
    utf8Encode (natToDecimal n) = (natToDecimalAux n).map Char.toNat := by
  unfold natToDecimal natToDecimalAux utf8Encode
  exact natDigitsGo_utf8 (n + 1) n (Nat.lt_succ_self n)

theorem utf8Encode_decimal_inj {n m : Nat}
    (h : utf8Encode (natToDecimal n) = utf8Encode (natToDecimal m)) : n = m := by
  rw [utf8Encode_natToDecimal, utf8Encode_natToDecimal] at h
  have hchars : natToDecimalAux n = natToDecimalAux m := by
    have hinj : Function.Injective Char.toNat := fun _ _ hc => charToNat_inj hc
    exact List.map_injective_iff.mpr hinj h
  exact natToDecimalAux_inj hchars

theorem urlsafeB64Encode_length (bs : List Nat) :
    (urlsafeB64Encode bs).length = (bs.length + 2) / 3 * 4 := by
  induction bs using urlsafeB64Encode.induct with
  | case1 => rfl
  | case2 a => simp [urlsafeB64Encode]
  | case3 a b => simp [urlsafeB64Encode]
  | case4 a b c rest ih =>
    simp only [urlsafeB64Encode, String.length_append, String.length_mk,
      List.length_cons, List.length_nil, ih]
    omega

theorem hexPairs_length (bs : List Nat) :
    ((bs.map (fun b => [hexChar (b % 256 / 16), hexChar (b % 256 % 16)])).flatten).length
      = 2 * bs.length := by
  induction bs with
  | nil => rfl
  | cons b tl ih =>
    simp only [List.map_cons, List.flatten_cons, List.length_append, List.length_cons,
      List.length_nil]
    omega

theorem toHex_length (bs : List Nat) : (toHex bs).length = 2 * bs.length := by
  show ((bs.map _).flatten : List Char).length = _
  exact hexPairs_length bs

theorem hexChar_isHex (n : Nat) : isLowerHexDigit (hexChar n) = true := by
  unfold hexChar
  have h : n % 16 < 16 := Nat.mod_lt _ (by norm_num)
  set m := n % 16 with hm
  interval_cases m <;> rfl

theorem hexPairs_all (bs : List Nat) :
    ((bs.map (fun b => [hexChar (b % 256 / 16), hexChar (b % 256 % 16)])).flatten).all
      isLowerHexDigit = true := by
  induction bs with
  | nil => rfl
  | cons b tl ih => simp [hexChar_isHex, ih]

theorem toHex_all_hex (bs : List Nat) : (toHex bs).data.all isLowerHexDigit = true := by
  exact hexPairs_all bs

theorem totalSecondsInt_ofNat (n : Nat) :
    totalSecondsInt (Int.ofNat n) = Int.ofNat (n / 1000000) := rfl

theorem pyTruthy_isNone_false {o : Option String} (h : pyTruthy o = true) :
    o.isNone = false := by
  cases o with
  | none => simp [pyTruthy] at h
  | some s => rfl

theorem pyTruthy_none : pyTruthy none = false := rfl

theorem intToDecimal_natCast (k : Nat) : intToDecimal (k : Int) = natToDecimal k := by
  unfold intToDecimal
  rw [if_neg (by omega : ¬ ((k : Int) < 0))]
  simp

theorem totalSecondsInt_natCast (m : Nat) :
    totalSecondsInt (m : Int) = ((m / 1000000 : Nat) : Int) := rfl

theorem stripTrailingEqStr_fullPath : stripTrailingEqStr "FullPath" = "FullPath" := rfl

theorem fullPath_append_expires :
    ("FullPath" ++ "~Expires=" : String) = "FullPath~Expires=" := rfl

theorem pyLower_sha1 : pyLower "sha1" = "sha1" := rfl

theorem sha1_contains : (["sha1", "sha256", "ed25519"].contains (pyLower "sha1")) = true := by
  decide

theorem pyLower_ed25519 : pyLower "ed25519" = "ed25519" := rfl

theorem ed25519_contains :
    (["sha1", "sha256", "ed25519"].contains (pyLower "ed25519")) = true := by
  decide

/-! ### Claim theorems -/

/-- Claim C1 (confirmed).  For every url, key name, well-formed 32-byte
base64 key and expiration time, `sign_url` returns exactly
`{trimmed_url}{separator}Expires={epoch_seconds}&KeyName={key_name}&Signature={urlsafe_base64(Ed25519 signature of the policy bytes)}`,
where the separator is `&` when the trimmed URL already carries one or
more query parameters and `?` when it carries none. -/
theorem sign_url_format (edSign : List Nat → List Nat → List Nat)
    (url key_name base64_key : String) (key : List Nat) (t : Int)
    (hk : urlsafeB64Decode base64_key = some key) (hl : key.length = 32) :
    sign_url edSign url key_name base64_key t
      = .ok (url_to_sign url key_name t ++ "&Signature="
          ++ urlsafeB64Encode (edSign key (utf8Encode (url_to_sign url key_name t))))
    ∧ url_to_sign url key_name t
      = pyStrip url
        ++ (if hasQueryParams (urlsplitQuery (pyStrip url)) then "&" else "?")
        ++ "Expires=" ++ intToDecimal (totalSecondsInt t)
        ++ "&KeyName=" ++ key_name := by
  constructor
  · simp [sign_url, hk, hl]
  · rfl

/-- Witness for C1 at a concrete input. -/
theorem sign_url_format_witness :
    urlsafeB64Decode zeroKeyB64 = some zeroKey ∧ zeroKey.length = 32
    ∧ (sign_url (constBytes 64) "https://example.com/object" "my-key" zeroKeyB64 1000000000
        = .ok (url_to_sign "https://example.com/object" "my-key" 1000000000 ++ "&Signature="
            ++ urlsafeB64Encode (constBytes 64 zeroKey
                (utf8Encode (url_to_sign "https://example.com/object" "my-key" 1000000000))))
      ∧ url_to_sign "https://example.com/object" "my-key" 1000000000
        = pyStrip "https://example.com/object"
          ++ (if hasQueryParams (urlsplitQuery (pyStrip "https://example.com/object"))
              then "&" else "?")
          ++ "Expires=" ++ intToDecimal (totalSecondsInt 1000000000)
          ++ "&KeyName=" ++ "my-key") :=
  have h1 : urlsafeB64Decode zeroKeyB64 = some zeroKey := by decide
  have h2 : zeroKey.length = 32 := by decide
  ⟨h1, h2, sign_url_format (constBytes 64) "https://example.com/object" "my-key"
    zeroKeyB64 zeroKey 1000000000 h1 h2⟩

/-- Claim C7 (confirmed).  For every url prefix, key name, well-formed
32-byte base64 key and expiration time, `sign_cookie` returns exactly
`Edge-Cache-Cookie=URLPrefix={urlsafe_base64(trimmed prefix)}:Expires={epoch_seconds}:KeyName={key_name}:Signature={urlsafe_base64(Ed25519 signature of the colon-joined policy bytes)}`,
a complete cookie-header value with colon delimiters throughout. -/
theorem sign_cookie_format (edSign : List Nat → List Nat → List Nat)
    ( urlPrefix key_name base64_key : String) (key : List Nat) (t : Int)
    (hk : urlsafeB64Decode base64_key = some key) (hl : key.length = 32) :
    sign_cookie edSign urlPrefix key_name base64_key t
      = .ok ("Edge-Cache-Cookie="
          ++ ("URLPrefix=" ++ urlsafeB64Encode (utf8Encode (pyStrip urlPrefix))
            ++ ":Expires=" ++ intToDecimal (totalSecondsInt t)
            ++ ":KeyName=" ++ key_name)
          ++ ":Signature="
          ++ urlsafeB64Encode (edSign key (utf8Encode
              ("URLPrefix=" ++ urlsafeB64Encode (utf8Encode (pyStrip urlPrefix))
                ++ ":Expires=" ++ intToDecimal (totalSecondsInt t)
                ++ ":KeyName=" ++ key_name)))) := by
  simp [sign_cookie, hk, hl]

/-- Witness for C7 at a concrete input. -/
theorem sign_cookie_format_witness :
    urlsafeB64Decode zeroKeyB64 = some zeroKey ∧ zeroKey.length = 32
    ∧ sign_cookie (constBytes 64) "/media/" "my-key" zeroKeyB64 0
      = .ok ("Edge-Cache-Cookie="
          ++ ("URLPrefix=" ++ urlsafeB64Encode (utf8Encode (pyStrip "/media/"))
            ++ ":Expires=" ++ intToDecimal (totalSecondsInt 0)
            ++ ":KeyName=" ++ "my-key")
          ++ ":Signature="
          ++ urlsafeB64Encode (constBytes 64 zeroKey (utf8Encode
              ("URLPrefix=" ++ urlsafeB64Encode (utf8Encode (pyStrip "/media/"))
                ++ ":Expires=" ++ intToDecimal (totalSecondsInt 0)
                ++ ":KeyName=" ++ "my-key")))) :=
  have h1 : urlsafeB64Decode zeroKeyB64 = some zeroKey := by decide
  have h2 : zeroKey.length = 32 := by decide
  ⟨h1, h2, sign_cookie_format (constBytes 64) "/media/" "my-key" zeroKeyB64 zeroKey 0 h1 h2⟩

/-- Claim C10 (confirmed).  Every signing operation of the embedding is a
pure function of its arguments, so two calls with identical (scope, key,
expiration, key-name) inputs — expiration supplied explicitly — return
character-for-character identical artifacts in all four modes.  (The
external Ed25519/HMAC primitives are deterministic functions of key and
message, which the embedding reflects by modelling them as functions.) -/
theorem signing_deterministic (hm1 hm2 edSign : List Nat → List Nat → List Nat)
    (url urlPrefix key_name base64_key alg : String) (t now : Int)
    (up fp pg : Option String) :
    sign_url edSign url key_name base64_key t
      = sign_url edSign url key_name base64_key t
    ∧ ( sign_url_prefix edSign url urlPrefix key_name base64_key t
      = sign_url_prefix edSign url urlPrefix key_name base64_key t)
    ∧ sign_cookie edSign urlPrefix key_name base64_key t
      = sign_cookie edSign urlPrefix key_name base64_key t
    ∧ sign_token hm1 hm2 edSign base64_key alg (some t) now up fp pg
      = sign_token hm1 hm2 edSign base64_key alg (some t) now up fp pg :=
  ⟨rfl, rfl, rfl, rfl⟩

/-- Claim C2 (corrected): at the concrete input where all three scope
arguments are supplied as empty strings, `sign_token` does not fail with
an input-validation `ValueError` — the `is None` check passes, no branch
assigns `output`, and the `while` loop raises `UnboundLocalError`. -/
theorem sign_token_empty_scope_counterexample :
    sign_token (constBytes 20) (constBytes 32) (constBytes 64) "" "sha1"
        (some 0) 0 (some "") (some "") (some "")
      = .error (.unboundLocalError "output")
    ∧ isInputValidationError
        (sign_token (constBytes 20) (constBytes 32) (constBytes 64) "" "sha1"
          (some 0) 0 (some "") (some "") (some "")) = false := by
  exact ⟨rfl, rfl⟩

/-- Claim C2 (corrected, amended form).  `sign_token` raises a descriptive
`ValueError` before any key decoding or cryptographic work when all three
of `url_prefix`, `full_path`, `path_globs` are `None`, and likewise when
`encryption_algorithm` is not case-insensitively one of sha1/sha256/ed25519
(given that at least one scope argument is non-`None`); in each case the
caller receives no partially built token.  When all three scope arguments
are supplied but empty (non-`None`), the `is None` validation does not
fire and the call instead fails with an `UnboundLocalError`. -/
theorem sign_token_validation (hm1 hm2 edSign : List Nat → List Nat → List Nat)
    (base64_key alg alg2 : String) (exp : Option Int) (now : Int)
    (up fp pg : Option String)
    (h1 : (["sha1", "sha256", "ed25519"].contains (pyLower alg2)) = false)
    (h2 : (up.isNone && fp.isNone && pg.isNone) = false) :
    sign_token hm1 hm2 edSign base64_key alg exp now none none none
      = .error (.valueError
          "User Input Missing: One of `url_prefix`, `full_path` or `path_globs` must be specified")
    ∧ sign_token hm1 hm2 edSign base64_key alg2 exp now up fp pg
      = .error (.valueError
          "Input Missing Error: `encryption_algorithm` can only be one of `sha1`, `sha256` or `ed25519`") := by
  constructor
  · rfl
  · simp only [sign_token, h1, h2]
    rfl

/-- Witness for the amended C2 at concrete inputs. -/
theorem sign_token_validation_witness :
    (["sha1", "sha256", "ed25519"].contains (pyLower "md5")) = false
    ∧ (((some "x" : Option String).isNone && (none : Option String).isNone
        && (none : Option String).isNone)) = false
    ∧ (sign_token (constBytes 20) (constBytes 32) (constBytes 64) "" "sha1"
          (some 0) 0 none none none
        = .error (.valueError
            "User Input Missing: One of `url_prefix`, `full_path` or `path_globs` must be specified")
      ∧ sign_token (constBytes 20) (constBytes 32) (constBytes 64) "" "md5"
          (some 0) 0 (some "x") none none
        = .error (.valueError
            "Input Missing Error: `encryption_algorithm` can only be one of `sha1`, `sha256` or `ed25519`")) :=
  have h1 : (["sha1", "sha256", "ed25519"].contains (pyLower "md5")) = false := by decide
  have h2 : (((some "x" : Option String).isNone && (none : Option String).isNone
      && (none : Option String).isNone)) = false := by decide
  ⟨h1, h2, sign_token_validation (constBytes 20) (constBytes 32) (constBytes 64) "" "sha1"
    "md5" (some 0) 0 (some "x") none none h1 h2⟩

/-- Claim C6 (confirmed).  `sign_token` selects the scope payload by the
fixed priority order `full_path`, then `path_globs`, then `url_prefix`:
whenever `full_path` is supplied non-empty the other two arguments are
ignored, and whenever `full_path` is not supplied but `path_globs` is,
`url_prefix` is ignored. -/
theorem sign_token_scope_priority (hm1 hm2 edSign : List Nat → List Nat → List Nat)
    (base64_key alg : String) (exp : Option Int) (now : Int)
    (up fp pg : Option String) :
    (pyTruthy fp = true →
      sign_token hm1 hm2 edSign base64_key alg exp now up fp pg
        = sign_token hm1 hm2 edSign base64_key alg exp now none fp none)
    ∧ (pyTruthy fp = false → pyTruthy pg = true →
      sign_token hm1 hm2 edSign base64_key alg exp now up fp pg
        = sign_token hm1 hm2 edSign base64_key alg exp now none none pg) := by
  constructor
  · intro h
    have hn := pyTruthy_isNone_false h
    simp [sign_token, h, hn, pyTruthy_none]
  · intro hf hg
    have hn := pyTruthy_isNone_false hg
    simp [sign_token, hf, hg, hn, pyTruthy_none]

/-- Witness for C6: with several scope arguments supplied at once, the
highest-priority one wins. -/
theorem sign_token_scope_priority_witness :
    (sign_token (constBytes 20) (constBytes 32) (constBytes 64) "" "sha1" (some 0) 0
        (some "https://e.com/p/") (some "/p") (some "/g/*")
      = sign_token (constBytes 20) (constBytes 32) (constBytes 64) "" "sha1" (some 0) 0
        none (some "/p") none)
    ∧ (sign_token (constBytes 20) (constBytes 32) (constBytes 64) "" "sha1" (some 0) 0
        (some "https://e.com/p/") none (some "/g/*")
      = sign_token (constBytes 20) (constBytes 32) (constBytes 64) "" "sha1" (some 0) 0
        none none (some "/g/*")) :=
  ⟨(sign_token_scope_priority (constBytes 20) (constBytes 32) (constBytes 64) "" "sha1"
      (some 0) 0 (some "https://e.com/p/") (some "/p") (some "/g/*")).1 rfl,
   (sign_token_scope_priority (constBytes 20) (constBytes 32) (constBytes 64) "" "sha1"
      (some 0) 0 (some "https://e.com/p/") none (some "/g/*")).2 rfl rfl⟩

/-- Claim C3 (corrected): at the concrete pre-epoch expiration
1969-12-31T23:59:59.5Z (microsecond count `-500000`), the embedded field
is `0`, not `floor(-0.5) = -1`, and increasing the expiration by exactly
one second leaves the embedded field — and the entire signed URL —
unchanged, because `int(total_seconds())` truncates toward zero. -/
theorem expires_trunc_counterexample :
    sign_url idSign "https://example.com/object" "my-key" zeroKeyB64 (-500000)
      = sign_url idSign "https://example.com/object" "my-key" zeroKeyB64 ((-500000) + 1000000)
    ∧ totalSecondsInt (-500000) = 0
    ∧ Int.fdiv (-500000) 1000000 = -1
    ∧ totalSecondsInt ((-500000) + 1000000) = totalSecondsInt (-500000) := by
  refine ⟨rfl, by decide, by decide, by decide⟩

/-- Claim C3 (corrected, amended form).  For expiration times at or after
the epoch, the embedded `Expires` value (`totalSecondsInt`, computed
identically by all four signing modes) equals the floor of the seconds
since the epoch, and adding exactly one second increases it by exactly
one.  In each of the four modes — `sign_url`, `sign_url_prefix`,
`sign_cookie` and `sign_token` (both its Ed25519 signature and its SHA-1
HMAC digest) — the output embeds that value in its signed policy/payload,
and, the signing primitive being injective in the message as a
deterministic signature scheme is, a one-second increase changes the
resulting signature (respectively digest).  For fractional pre-epoch
times the code truncates toward zero instead of flooring. -/
theorem expires_floor_amended (hm1 hm2 edSign : List Nat → List Nat → List Nat)
    (url urlPrefix key_name base64_key : String) (key : List Nat)
    (fp : String) (t now : Int)
    (hk : urlsafeB64Decode base64_key = some key) (hl : key.length = 32)
    (ht : 0 ≤ t)
    (hfp : pyTruthy (some fp) = true)
    (hinj : ∀ m1 m2 : List Nat, edSign key m1 = edSign key m2 → m1 = m2)
    (hinj1 : ∀ m1 m2 : List Nat, hm1 key m1 = hm1 key m2 → m1 = m2) :
    totalSecondsInt t = Int.fdiv t 1000000
    ∧ totalSecondsInt (t + 1000000) = totalSecondsInt t + 1
    ∧ sign_url edSign url key_name base64_key t
        = .ok (url_to_sign url key_name t ++ "&Signature="
            ++ urlsafeB64Encode (edSign key (utf8Encode (url_to_sign url key_name t))))
    ∧ edSign key (utf8Encode (url_to_sign url key_name t))
        ≠ edSign key (utf8Encode (url_to_sign url key_name (t + 1000000)))
    ∧ sign_url_prefix edSign url urlPrefix key_name base64_key t
        = .ok (pyStrip url
            ++ (if hasQueryParams (urlsplitQuery (pyStrip url)) then "&" else "?")
            ++ ("URLPrefix=" ++ urlsafeB64Encode (utf8Encode (pyStrip urlPrefix))
              ++ "&Expires=" ++ intToDecimal (totalSecondsInt t)
              ++ "&KeyName=" ++ key_name)
            ++ "&Signature="
            ++ urlsafeB64Encode (edSign key (utf8Encode
                ("URLPrefix=" ++ urlsafeB64Encode (utf8Encode (pyStrip urlPrefix))
                  ++ "&Expires=" ++ intToDecimal (totalSecondsInt t)
                  ++ "&KeyName=" ++ key_name))))
    ∧ edSign key (utf8Encode
          ("URLPrefix=" ++ urlsafeB64Encode (utf8Encode (pyStrip urlPrefix))
            ++ "&Expires=" ++ intToDecimal (totalSecondsInt t)
            ++ "&KeyName=" ++ key_name))
        ≠ edSign key (utf8Encode
          ("URLPrefix=" ++ urlsafeB64Encode (utf8Encode (pyStrip urlPrefix))
            ++ "&Expires=" ++ intToDecimal (totalSecondsInt (t + 1000000))
            ++ "&KeyName=" ++ key_name))
    ∧ sign_cookie edSign urlPrefix key_name base64_key t
        = .ok ("Edge-Cache-Cookie="
            ++ ("URLPrefix=" ++ urlsafeB64Encode (utf8Encode (pyStrip urlPrefix))
              ++ ":Expires=" ++ intToDecimal (totalSecondsInt t)
              ++ ":KeyName=" ++ key_name)
            ++ ":Signature="
            ++ urlsafeB64Encode (edSign key (utf8Encode
                ("URLPrefix=" ++ urlsafeB64Encode (utf8Encode (pyStrip urlPrefix))
                  ++ ":Expires=" ++ intToDecimal (totalSecondsInt t)
                  ++ ":KeyName=" ++ key_name))))
    ∧ edSign key (utf8Encode
          ("URLPrefix=" ++ urlsafeB64Encode (utf8Encode (pyStrip urlPrefix))
            ++ ":Expires=" ++ intToDecimal (totalSecondsInt t)
            ++ ":KeyName=" ++ key_name))
        ≠ edSign key (utf8Encode
          ("URLPrefix=" ++ urlsafeB64Encode (utf8Encode (pyStrip urlPrefix))
            ++ ":Expires=" ++ intToDecimal (totalSecondsInt (t + 1000000))
            ++ ":KeyName=" ++ key_name))
    ∧ sign_token hm1 hm2 edSign base64_key "ed25519" (some t) now none (some fp) none
        = .ok ("FullPath~Expires=" ++ intToDecimal (totalSecondsInt t) ++ "~Signature="
            ++ urlsafeB64Encode (edSign key (utf8Encode
                ("FullPath~Expires=" ++ intToDecimal (totalSecondsInt t)))))
    ∧ edSign key (utf8Encode ("FullPath~Expires=" ++ intToDecimal (totalSecondsInt t)))
        ≠ edSign key (utf8Encode
            ("FullPath~Expires=" ++ intToDecimal (totalSecondsInt (t + 1000000))))
    ∧ sign_token hm1 hm2 edSign base64_key "sha1" (some t) now none (some fp) none
        = .ok ("FullPath~Expires=" ++ intToDecimal (totalSecondsInt t) ++ "~hmac="
            ++ toHex (hm1 key (utf8Encode
                ("FullPath~Expires=" ++ intToDecimal (totalSecondsInt t)))))
    ∧ hm1 key (utf8Encode ("FullPath~Expires=" ++ intToDecimal (totalSecondsInt t)))
        ≠ hm1 key (utf8Encode
            ("FullPath~Expires=" ++ intToDecimal (totalSecondsInt (t + 1000000)))) := by
  obtain ⟨n, rfl⟩ := Int.eq_ofNat_of_zero_le ht
  have e1 : ((n : Int) + 1000000) = (((n + 1000000 : Nat) : Int)) := by omega
  have hfield : n / 1000000 ≠ (n + 1000000) / 1000000 := by omega
  refine ⟨?_, ?_, ?_, ?_, ?_, ?_, ?_, ?_, ?_, ?_, ?_, ?_⟩
  · rw [Int.fdiv_eq_tdiv ht (by omega)]
    rfl
  · rw [e1, totalSecondsInt_natCast, totalSecondsInt_natCast]
    omega
  · simp [sign_url, hk, hl]
  · rw [e1]
    intro heq
    have hmsg := hinj _ _ heq
    simp only [url_to_sign, totalSecondsInt_natCast, intToDecimal_natCast,
      utf8Encode_append, List.append_assoc] at hmsg
    have h2 := List.append_cancel_left hmsg
    have h3 := List.append_cancel_left h2
    have h4 := List.append_cancel_left h3
    exact hfield (utf8Encode_decimal_inj (List.append_cancel_right h4))
  · simp [ sign_url_prefix, hk, hl]
  · rw [e1]
    intro heq
    have hmsg := hinj _ _ heq
    simp only [totalSecondsInt_natCast, intToDecimal_natCast,
      utf8Encode_append, List.append_assoc] at hmsg
    have h2 := List.append_cancel_left hmsg
    have h3 := List.append_cancel_left h2
    have h4 := List.append_cancel_left h3
    exact hfield (utf8Encode_decimal_inj (List.append_cancel_right h4))
  · simp [sign_cookie, hk, hl]
  · rw [e1]
    intro heq
    have hmsg := hinj _ _ heq
    simp only [totalSecondsInt_natCast, intToDecimal_natCast,
      utf8Encode_append, List.append_assoc] at hmsg
    have h2 := List.append_cancel_left hmsg
    have h3 := List.append_cancel_left h2
    have h4 := List.append_cancel_left h3
    exact hfield (utf8Encode_decimal_inj (List.append_cancel_right h4))
  · simp [sign_token, hfp, hk, hl, ed25519_contains, pyLower_ed25519, pyTruthy_none,
      stripTrailingEqStr_fullPath, fullPath_append_expires]
  · rw [e1]
    intro heq
    have hmsg := hinj _ _ heq
    simp only [totalSecondsInt_natCast, intToDecimal_natCast,
      utf8Encode_append, List.append_assoc] at hmsg
    have h2 := List.append_cancel_left hmsg
    exact hfield (utf8Encode_decimal_inj h2)
  · simp [sign_token, hfp, hk, sha1_contains, pyLower_sha1, pyTruthy_none,
      stripTrailingEqStr_fullPath, fullPath_append_expires]
  · rw [e1]
    intro heq
    have hmsg := hinj1 _ _ heq
    simp only [totalSecondsInt_natCast, intToDecimal_natCast,
      utf8Encode_append, List.append_assoc] at hmsg
    have h2 := List.append_cancel_left hmsg
    exact hfield (utf8Encode_decimal_inj h2)

/-- Witness for the amended C3 at a concrete input covering all four
signing modes. -/
theorem expires_floor_amended_witness :
    urlsafeB64Decode zeroKeyB64 = some zeroKey ∧ zeroKey.length = 32 ∧ ((0 : Int) ≤ 0)
    ∧ pyTruthy (some "/a") = true
    ∧ (totalSecondsInt 0 = Int.fdiv 0 1000000
      ∧ totalSecondsInt (0 + 1000000) = totalSecondsInt 0 + 1
      ∧ sign_url idSign "https://example.com/object" "my-key" zeroKeyB64 0
          = .ok (url_to_sign "https://example.com/object" "my-key" 0 ++ "&Signature="
              ++ urlsafeB64Encode (idSign zeroKey
                  (utf8Encode (url_to_sign "https://example.com/object" "my-key" 0))))
      ∧ idSign zeroKey (utf8Encode (url_to_sign "https://example.com/object" "my-key" 0))
          ≠ idSign zeroKey
              (utf8Encode (url_to_sign "https://example.com/object" "my-key" (0 + 1000000)))
      ∧ sign_url_prefix idSign "https://example.com/object" "/p/" "my-key" zeroKeyB64 0
          = .ok (pyStrip "https://example.com/object"
              ++ (if hasQueryParams (urlsplitQuery (pyStrip "https://example.com/object"))
                  then "&" else "?")
              ++ ("URLPrefix=" ++ urlsafeB64Encode (utf8Encode (pyStrip "/p/"))
                ++ "&Expires=" ++ intToDecimal (totalSecondsInt 0)
                ++ "&KeyName=" ++ "my-key")
              ++ "&Signature="
              ++ urlsafeB64Encode (idSign zeroKey (utf8Encode
                  ("URLPrefix=" ++ urlsafeB64Encode (utf8Encode (pyStrip "/p/"))
                    ++ "&Expires=" ++ intToDecimal (totalSecondsInt 0)
                    ++ "&KeyName=" ++ "my-key"))))
      ∧ idSign zeroKey (utf8Encode
            ("URLPrefix=" ++ urlsafeB64Encode (utf8Encode (pyStrip "/p/"))
              ++ "&Expires=" ++ intToDecimal (totalSecondsInt 0)
              ++ "&KeyName=" ++ "my-key"))
          ≠ idSign zeroKey (utf8Encode
            ("URLPrefix=" ++ urlsafeB64Encode (utf8Encode (pyStrip "/p/"))
              ++ "&Expires=" ++ intToDecimal (totalSecondsInt (0 + 1000000))
              ++ "&KeyName=" ++ "my-key"))
      ∧ sign_cookie idSign "/p/" "my-key" zeroKeyB64 0
          = .ok ("Edge-Cache-Cookie="
              ++ ("URLPrefix=" ++ urlsafeB64Encode (utf8Encode (pyStrip "/p/"))
                ++ ":Expires=" ++ intToDecimal (totalSecondsInt 0)
                ++ ":KeyName=" ++ "my-key")
              ++ ":Signature="
              ++ urlsafeB64Encode (idSign zeroKey (utf8Encode
                  ("URLPrefix=" ++ urlsafeB64Encode (utf8Encode (pyStrip "/p/"))
                    ++ ":Expires=" ++ intToDecimal (totalSecondsInt 0)
                    ++ ":KeyName=" ++ "my-key"))))
      ∧ idSign zeroKey (utf8Encode
            ("URLPrefix=" ++ urlsafeB64Encode (utf8Encode (pyStrip "/p/"))
              ++ ":Expires=" ++ intToDecimal (totalSecondsInt 0)
              ++ ":KeyName=" ++ "my-key"))
          ≠ idSign zeroKey (utf8Encode
            ("URLPrefix=" ++ urlsafeB64Encode (utf8Encode (pyStrip "/p/"))
              ++ ":Expires=" ++ intToDecimal (totalSecondsInt (0 + 1000000))
              ++ ":KeyName=" ++ "my-key"))
      ∧ sign_token idSign (constBytes 32) idSign zeroKeyB64 "ed25519"
            (some 0) 0 none (some "/a") none
          = .ok ("FullPath~Expires=" ++ intToDecimal (totalSecondsInt 0) ++ "~Signature="
              ++ urlsafeB64Encode (idSign zeroKey (utf8Encode
                  ("FullPath~Expires=" ++ intToDecimal (totalSecondsInt 0)))))
      ∧ idSign zeroKey (utf8Encode ("FullPath~Expires=" ++ intToDecimal (totalSecondsInt 0)))
          ≠ idSign zeroKey (utf8Encode
              ("FullPath~Expires=" ++ intToDecimal (totalSecondsInt (0 + 1000000))))
      ∧ sign_token idSign (constBytes 32) idSign zeroKeyB64 "sha1"
            (some 0) 0 none (some "/a") none
          = .ok ("FullPath~Expires=" ++ intToDecimal (totalSecondsInt 0) ++ "~hmac="
              ++ toHex (idSign zeroKey (utf8Encode
                  ("FullPath~Expires=" ++ intToDecimal (totalSecondsInt 0)))))
      ∧ idSign zeroKey (utf8Encode ("FullPath~Expires=" ++ intToDecimal (totalSecondsInt 0)))
          ≠ idSign zeroKey (utf8Encode
              ("FullPath~Expires=" ++ intToDecimal (totalSecondsInt (0 + 1000000))))) :=
  have h1 : urlsafeB64Decode zeroKeyB64 = some zeroKey := by decide
  have h2 : zeroKey.length = 32 := by decide
  have h3 : (0 : Int) ≤ 0 := by decide
  have h4 : pyTruthy (some "/a") = true := by decide
  ⟨h1, h2, h3, h4, expires_floor_amended idSign (constBytes 32) idSign
    "https://example.com/object" "/p/" "my-key" zeroKeyB64 zeroKey "/a" 0 0
    h1 h2 h3 h4 (fun _ _ h => h) (fun _ _ h => h)⟩

/-- Claim C5 (corrected): at the concrete input of the claim, the value
following `&Signature=` is the URL-safe base64 encoding of the 64-byte
Ed25519 signature, which is 88 characters long (86 plus two `=` padding
characters), not 64 characters. -/
theorem sign_url_concrete_counterexample :
    sign_url (constBytes 64) "https://example.com/object" "my-key" zeroKeyB64 1000000000
      = .ok ("https://example.com/object?Expires=1000&KeyName=my-key&Signature="
          ++ urlsafeB64Encode (List.replicate 64 0))
    ∧ (urlsafeB64Encode (List.replicate 64 0)).length = 88
    ∧ (urlsafeB64Encode (List.replicate 64 0)).length ≠ 64 := by
  refine ⟨by decide, by decide, by decide⟩

/-- Claim C5 (corrected, amended form).  For the concrete input url
`https://example.com/object`, key name `my-key`, the base64 encoding of
32 zero bytes as the key, and expiration 1970-01-01T00:16:40Z, the output
of `sign_url` carries `Expires=1000&KeyName=my-key` immediately after
`?`, followed by `&Signature=` and the URL-safe base64 encoding of the
64-byte Ed25519 signature, an 88-character string (it would be 64
characters only if the raw 64 signature bytes were embedded). -/
theorem sign_url_concrete_amended (edSign : List Nat → List Nat → List Nat)
    (h : (edSign zeroKey
        (utf8Encode "https://example.com/object?Expires=1000&KeyName=my-key")).length = 64) :
    sign_url edSign "https://example.com/object" "my-key" zeroKeyB64 1000000000
      = .ok ("https://example.com/object?Expires=1000&KeyName=my-key" ++ "&Signature="
          ++ urlsafeB64Encode (edSign zeroKey
              (utf8Encode "https://example.com/object?Expires=1000&KeyName=my-key")))
    ∧ (urlsafeB64Encode (edSign zeroKey
        (utf8Encode "https://example.com/object?Expires=1000&KeyName=my-key"))).length = 88 := by
  have hk : urlsafeB64Decode zeroKeyB64 = some zeroKey := by decide
  have hu : url_to_sign "https://example.com/object" "my-key" 1000000000
      = "https://example.com/object?Expires=1000&KeyName=my-key" := by decide
  constructor
  · simp [sign_url, hk, hu, zeroKey]
  · rw [urlsafeB64Encode_length, h]

/-- Witness for the amended C5. -/
theorem sign_url_concrete_amended_witness :
    (constBytes 64 zeroKey
        (utf8Encode "https://example.com/object?Expires=1000&KeyName=my-key")).length = 64
    ∧ (sign_url (constBytes 64) "https://example.com/object" "my-key" zeroKeyB64 1000000000
        = .ok ("https://example.com/object?Expires=1000&KeyName=my-key" ++ "&Signature="
            ++ urlsafeB64Encode (constBytes 64 zeroKey
                (utf8Encode "https://example.com/object?Expires=1000&KeyName=my-key")))
      ∧ (urlsafeB64Encode (constBytes 64 zeroKey
          (utf8Encode "https://example.com/object?Expires=1000&KeyName=my-key"))).length = 88) :=
  have h : (constBytes 64 zeroKey
      (utf8Encode "https://example.com/object?Expires=1000&KeyName=my-key")).length = 64 := by
    decide
  ⟨h, sign_url_concrete_amended (constBytes 64) h⟩

/-- Claim C8 (confirmed).  With a scope of `full_path`, algorithm `sha1`
and an explicit expiration, `sign_token` returns the literal marker
`FullPath` (the path value itself appears nowhere in the output — the
right-hand side below does not mention it), followed by `~Expires=` and
the decimal epoch seconds, followed by `~hmac=` and the 40-lowercase-hex
digest of the preceding payload bytes under the decoded key. -/
theorem sign_token_sha1_format (hm1 hm2 edSign : List Nat → List Nat → List Nat)
    (base64_key : String) (key : List Nat) (fp : String) (t now : Int)
    (hk : urlsafeB64Decode base64_key = some key)
    (hfp : pyTruthy (some fp) = true)
    (hlen : ∀ k m : List Nat, (hm1 k m).length = 20) :
    sign_token hm1 hm2 edSign base64_key "sha1" (some t) now none (some fp) none
      = .ok ("FullPath~Expires=" ++ intToDecimal (totalSecondsInt t) ++ "~hmac="
          ++ toHex (hm1 key (utf8Encode
              ("FullPath~Expires=" ++ intToDecimal (totalSecondsInt t)))))
    ∧ (toHex (hm1 key (utf8Encode
        ("FullPath~Expires=" ++ intToDecimal (totalSecondsInt t))))).length = 40
    ∧ (toHex (hm1 key (utf8Encode
        ("FullPath~Expires=" ++ intToDecimal (totalSecondsInt t))))).data.all
          isLowerHexDigit = true := by
  refine ⟨?_, ?_, toHex_all_hex _⟩
  · simp [sign_token, hfp, hk, sha1_contains, pyLower_sha1,
      stripTrailingEqStr_fullPath, fullPath_append_expires]
  · rw [toHex_length, hlen]

/-- Witness for C8 at a concrete input. -/
theorem sign_token_sha1_format_witness :
    urlsafeB64Decode "" = some []
    ∧ pyTruthy (some "/a") = true
    ∧ (∀ k m : List Nat, (constBytes 20 k m).length = 20)
    ∧ (sign_token (constBytes 20) (constBytes 32) (constBytes 64) "" "sha1"
          (some 0) 0 none (some "/a") none
        = .ok ("FullPath~Expires=" ++ intToDecimal (totalSecondsInt 0) ++ "~hmac="
            ++ toHex (constBytes 20 [] (utf8Encode
                ("FullPath~Expires=" ++ intToDecimal (totalSecondsInt 0)))))
      ∧ (toHex (constBytes 20 [] (utf8Encode
          ("FullPath~Expires=" ++ intToDecimal (totalSecondsInt 0))))).length = 40
      ∧ (toHex (constBytes 20 [] (utf8Encode
          ("FullPath~Expires=" ++ intToDecimal (totalSecondsInt 0))))).data.all
            isLowerHexDigit = true) :=
  have h1 : urlsafeB64Decode "" = some [] := by decide
  have h2 : pyTruthy (some "/a") = true := by decide
  have h3 : ∀ k m : List Nat, (constBytes 20 k m).length = 20 := fun _ _ => rfl
  ⟨h1, h2, h3, sign_token_sha1_format (constBytes 20) (constBytes 32) (constBytes 64)
    "" [] "/a" 0 0 h1 h2 h3⟩

/-- Claim C4 (corrected): at the concrete input `path_globs = "/a="`,
`sign_token` strips the trailing `=` from the `PathGlobs=/a=` payload —
the strip loop sits outside the scope `if`/`elif` chain and runs in every
branch, so a `path_globs` payload IS stripped of trailing `=`, contrary
to the claim that only the `url_prefix` branch strips. -/
theorem sign_token_path_globs_strip_counterexample :
    sign_token (constBytes 20) (constBytes 32) (constBytes 64) "" "sha1"
        (some 0) 0 none none (some "/a=")
      = .ok "PathGlobs=/a~Expires=0~hmac=0000000000000000000000000000000000000000"
    ∧ sign_token (constBytes 20) (constBytes 32) (constBytes 64) "" "sha1"
        (some 0) 0 none none (some "/a=")
      ≠ .ok "PathGlobs=/a=~Expires=0~hmac=0000000000000000000000000000000000000000" := by
  exact ⟨by decide, by decide⟩

/-- Claim C4 (corrected, amended form).  The trailing-`=` strip loop of
`sign_token` runs on the selected payload in every branch: in the
`url_prefix` branch it strips the base64 padding, in the `path_globs`
branch it strips any trailing `=` of the glob expression, and in the
`full_path` branch it is a no-op because the `FullPath` marker does not
end in `=`.  `sign_url` and `sign_url_prefix` never strip padding from
their encoded fields: their outputs embed each URL-safe base64 encoding
verbatim. -/
theorem padding_strip_behavior (hm1 hm2 edSign : List Nat → List Nat → List Nat)
    (base64_key url urlPrefix key_name : String) (key : List Nat)
    (up fp pg : String) (t now : Int)
    (hk : urlsafeB64Decode base64_key = some key) (hl : key.length = 32)
    (hup : pyTruthy (some up) = true)
    (hfp : pyTruthy (some fp) = true)
    (hpg : pyTruthy (some pg) = true) :
    sign_token hm1 hm2 edSign base64_key "sha1" (some t) now (some up) none none
      = .ok (stripTrailingEqStr ("URLPrefix=" ++ urlsafeB64Encode (utf8Encode up))
          ++ "~Expires=" ++ intToDecimal (totalSecondsInt t) ++ "~hmac="
          ++ toHex (hm1 key (utf8Encode
              (stripTrailingEqStr ("URLPrefix=" ++ urlsafeB64Encode (utf8Encode up))
                ++ "~Expires=" ++ intToDecimal (totalSecondsInt t)))))
    ∧ sign_token hm1 hm2 edSign base64_key "sha1" (some t) now none none (some pg)
      = .ok (stripTrailingEqStr ("PathGlobs=" ++ pyStrip pg)
          ++ "~Expires=" ++ intToDecimal (totalSecondsInt t) ++ "~hmac="
          ++ toHex (hm1 key (utf8Encode
              (stripTrailingEqStr ("PathGlobs=" ++ pyStrip pg)
                ++ "~Expires=" ++ intToDecimal (totalSecondsInt t)))))
    ∧ stripTrailingEqStr "FullPath" = "FullPath"
    ∧ sign_token hm1 hm2 edSign base64_key "sha1" (some t) now none (some fp) none
      = .ok ("FullPath~Expires=" ++ intToDecimal (totalSecondsInt t) ++ "~hmac="
          ++ toHex (hm1 key (utf8Encode
              ("FullPath~Expires=" ++ intToDecimal (totalSecondsInt t)))))
    ∧ sign_url_prefix edSign url urlPrefix key_name base64_key t
      = .ok (pyStrip url
          ++ (if hasQueryParams (urlsplitQuery (pyStrip url)) then "&" else "?")
          ++ ("URLPrefix=" ++ urlsafeB64Encode (utf8Encode (pyStrip urlPrefix))
            ++ "&Expires=" ++ intToDecimal (totalSecondsInt t)
            ++ "&KeyName=" ++ key_name)
          ++ "&Signature="
          ++ urlsafeB64Encode (edSign key (utf8Encode
              ("URLPrefix=" ++ urlsafeB64Encode (utf8Encode (pyStrip urlPrefix))
                ++ "&Expires=" ++ intToDecimal (totalSecondsInt t)
                ++ "&KeyName=" ++ key_name))))
    ∧ sign_url edSign url key_name base64_key t
      = .ok (url_to_sign url key_name t ++ "&Signature="
          ++ urlsafeB64Encode (edSign key (utf8Encode (url_to_sign url key_name t)))) := by
  refine ⟨?_, ?_, rfl, ?_, ?_, ?_⟩
  · simp [sign_token, hup, hk, sha1_contains, pyLower_sha1, pyTruthy_none]
  · simp [sign_token, hpg, hk, sha1_contains, pyLower_sha1, pyTruthy_none]
  · simp [sign_token, hfp, hk, sha1_contains, pyLower_sha1, pyTruthy_none,
      stripTrailingEqStr_fullPath, fullPath_append_expires]
  · simp [ sign_url_prefix, hk, hl]
  · simp [sign_url, hk, hl]

/-- Witness for the amended C4 at concrete inputs. -/
theorem padding_strip_behavior_witness :
    urlsafeB64Decode zeroKeyB64 = some zeroKey ∧ zeroKey.length = 32
    ∧ pyTruthy (some "x") = true
    ∧ pyTruthy (some "/a") = true
    ∧ pyTruthy (some "/g=") = true
    ∧ (sign_token (constBytes 20) (constBytes 32) (constBytes 64) zeroKeyB64 "sha1"
          (some 0) 0 (some "x") none none
        = .ok (stripTrailingEqStr ("URLPrefix=" ++ urlsafeB64Encode (utf8Encode "x"))
            ++ "~Expires=" ++ intToDecimal (totalSecondsInt 0) ++ "~hmac="
            ++ toHex (constBytes 20 zeroKey (utf8Encode
                (stripTrailingEqStr ("URLPrefix=" ++ urlsafeB64Encode (utf8Encode "x"))
                  ++ "~Expires=" ++ intToDecimal (totalSecondsInt 0)))))
      ∧ sign_token (constBytes 20) (constBytes 32) (constBytes 64) zeroKeyB64 "sha1"
          (some 0) 0 none none (some "/g=")
        = .ok (stripTrailingEqStr ("PathGlobs=" ++ pyStrip "/g=")
            ++ "~Expires=" ++ intToDecimal (totalSecondsInt 0) ++ "~hmac="
            ++ toHex (constBytes 20 zeroKey (utf8Encode
                (stripTrailingEqStr ("PathGlobs=" ++ pyStrip "/g=")
                  ++ "~Expires=" ++ intToDecimal (totalSecondsInt 0)))))
      ∧ stripTrailingEqStr "FullPath" = "FullPath"
      ∧ sign_token (constBytes 20) (constBytes 32) (constBytes 64) zeroKeyB64 "sha1"
          (some 0) 0 none (some "/a") none
        = .ok ("FullPath~Expires=" ++ intToDecimal (totalSecondsInt 0) ++ "~hmac="
            ++ toHex (constBytes 20 zeroKey (utf8Encode
                ("FullPath~Expires=" ++ intToDecimal (totalSecondsInt 0)))))
      ∧ sign_url_prefix (constBytes 64) "https://e.com/o" "/p/" "k" zeroKeyB64 0
        = .ok (pyStrip "https://e.com/o"
            ++ (if hasQueryParams (urlsplitQuery (pyStrip "https://e.com/o")) then "&" else "?")
            ++ ("URLPrefix=" ++ urlsafeB64Encode (utf8Encode (pyStrip "/p/"))
              ++ "&Expires=" ++ intToDecimal (totalSecondsInt 0)
              ++ "&KeyName=" ++ "k")
            ++ "&Signature="
            ++ urlsafeB64Encode (constBytes 64 zeroKey (utf8Encode
                ("URLPrefix=" ++ urlsafeB64Encode (utf8Encode (pyStrip "/p/"))
                  ++ "&Expires=" ++ intToDecimal (totalSecondsInt 0)
                  ++ "&KeyName=" ++ "k"))))
      ∧ sign_url (constBytes 64) "https://e.com/o" "k" zeroKeyB64 0
        = .ok (url_to_sign "https://e.com/o" "k" 0 ++ "&Signature="
            ++ urlsafeB64Encode (constBytes 64 zeroKey
                (utf8Encode (url_to_sign "https://e.com/o" "k" 0))))) :=
  have h1 : urlsafeB64Decode zeroKeyB64 = some zeroKey := by decide
  have h2 : zeroKey.length = 32 := by decide
  have h3 : pyTruthy (some "x") = true := by decide
  have h4 : pyTruthy (some "/a") = true := by decide
  have h5 : pyTruthy (some "/g=") = true := by decide
  ⟨h1, h2, h3, h4, h5, padding_strip_behavior (constBytes 20) (constBytes 32) (constBytes 64)
    zeroKeyB64 "https://e.com/o" "/p/" "k" zeroKey "x" "/a" "/g=" 0 0 h1 h2 h3 h4 h5⟩

/-- Claim C9 (confirmed).  In `sign_url_prefix` the signed payload does
not depend on the request url: for two different urls and otherwise fixed
inputs, the two outputs share an identical policy-plus-`Signature` tail
and differ only in the leading trimmed url and the separator chosen from
that url's own query parameters. -/
theorem sign_url_prefix_independent (edSign : List Nat → List Nat → List Nat)
    (u1 u2 urlPrefix key_name base64_key : String) (key : List Nat) (t : Int)
    (hk : urlsafeB64Decode base64_key = some key) (hl : key.length = 32) :
    ∃ tail : String,
      sign_url_prefix edSign u1 urlPrefix key_name base64_key t
        = .ok (pyStrip u1
            ++ ((if hasQueryParams (urlsplitQuery (pyStrip u1)) then "&" else "?") ++ tail))
      ∧ sign_url_prefix edSign u2 urlPrefix key_name base64_key t
        = .ok (pyStrip u2
            ++ ((if hasQueryParams (urlsplitQuery (pyStrip u2)) then "&" else "?") ++ tail)) := by
  refine ⟨("URLPrefix=" ++ urlsafeB64Encode (utf8Encode (pyStrip urlPrefix))
      ++ "&Expires=" ++ intToDecimal (totalSecondsInt t) ++ "&KeyName=" ++ key_name)
      ++ ("&Signature=" ++ urlsafeB64Encode (edSign key (utf8Encode
        ("URLPrefix=" ++ urlsafeB64Encode (utf8Encode (pyStrip urlPrefix))
          ++ "&Expires=" ++ intToDecimal (totalSecondsInt t) ++ "&KeyName=" ++ key_name)))),
    ?_, ?_⟩
  · simp [ sign_url_prefix, hk, hl, String.append_assoc]
  · simp [ sign_url_prefix, hk, hl, String.append_assoc]

/-- Witness for C9: one request url with a query string and one without. -/
theorem sign_url_prefix_independent_witness :
    urlsafeB64Decode zeroKeyB64 = some zeroKey ∧ zeroKey.length = 32
    ∧ ∃ tail : String,
      sign_url_prefix (constBytes 64) "https://e.com/a?x=1" "https://e.com/" "k" zeroKeyB64 0
        = .ok (pyStrip "https://e.com/a?x=1"
            ++ ((if hasQueryParams (urlsplitQuery (pyStrip "https://e.com/a?x=1"))
                then "&" else "?") ++ tail))
      ∧ sign_url_prefix (constBytes 64) "https://e.com/b" "https://e.com/" "k" zeroKeyB64 0
        = .ok (pyStrip "https://e.com/b"
            ++ ((if hasQueryParams (urlsplitQuery (pyStrip "https://e.com/b"))
                then "&" else "?") ++ tail)) :=
  have h1 : urlsafeB64Decode zeroKeyB64 = some zeroKey := by decide
  have h2 : zeroKey.length = 32 := by decide
  ⟨h1, h2, sign_url_prefix_independent (constBytes 64) "https://e.com/a?x=1" "https://e.com/b"
    "https://e.com/" "k" zeroKeyB64 zeroKey 0 h1 h2⟩

end MediaCDN
